import Mathlib

/-!
The article repository layer of caring/articles.

A shallow embedding of `internal/db/article.go` and `internal/db/statements.go`.

* Go `(*Article, error)` results are pairs `Option Article × Option GoError`
  (`none` is Go `nil`).
* The database reached through `database/sql` is an explicit state `σ`
  threaded through every call; what the driver answers is a parameter
  (`DB σ`), so the theorems about the error mapping hold for every driver.
* `sqlDB` is one concrete driver: the four statements of `statements.go`
  run on a list of rows.
* `create` and `update` bind `input.ArticleID`, a selector that the struct `Article`
  does not declare; what it denotes is a parameter of these functions.
-/

namespace Articles

deriving instance DecidableEq for Except

/-! ## google/uuid -/

/-- Value of Go type `uuid.UUID`, an array of sixteen bytes. -/
structure UUID where
  bytes : List (Fin 256)
  size : bytes.length = 16
deriving DecidableEq

/-- The zero value of `uuid.UUID` (`uuid.Nil`): sixteen zero bytes. -/
def UUID.Nil : UUID := ⟨List.replicate 16 0, by decide⟩

/-- Lower-case hexadecimal digit of a nibble (table `0123456789abcdef` of `encoding/hex`). -/
def hexDigit (n : Nat) : Char :=
  ['0', '1', '2', '3', '4', '5', '6', '7', '8', '9', 'a', 'b', 'c', 'd', 'e', 'f'].getD n '0'

/-- Go `hex.Encode`: two digits per byte, high nibble first. -/
def hexEncode : List (Fin 256) → List Char
  | [] => []
  | b :: bs => hexDigit (b.val / 16) :: hexDigit (b.val % 16) :: hexEncode bs

/-- Go `uuid.encodeHex`: the groups of 4, 2, 2, 2 and 6 bytes separated by dashes. -/
def encodeHex (bs : List (Fin 256)) : List Char :=
  hexEncode (bs.take 4) ++ '-' :: hexEncode ((bs.drop 4).take 2) ++ '-' ::
    hexEncode ((bs.drop 6).take 2) ++ '-' :: hexEncode ((bs.drop 8).take 2) ++ '-' ::
    hexEncode (bs.drop 10)

/-- Go `UUID.String`: the canonical 36 character text form. -/
def UUID.String (u : UUID) : String := String.mk (encodeHex u.bytes)

/-- Value of a hexadecimal digit, either case. -/
def hexVal (c : Char) : Option Nat :=
  if '0' ≤ c ∧ c ≤ '9' then some (c.toNat - '0'.toNat)
  else if 'a' ≤ c ∧ c ≤ 'f' then some (c.toNat - 'a'.toNat + 10)
  else if 'A' ≤ c ∧ c ≤ 'F' then some (c.toNat - 'A'.toNat + 10)
  else none

/-- Go `hex.Decode` on a list of digits: one byte per pair, `none` on a bad digit or odd length. -/
def hexDecode : List Char → Option (List (Fin 256))
  | [] => some []
  | [_] => none
  | h :: l :: cs =>
    match hexVal h, hexVal l, hexDecode cs with
    | some a, some b, some bs => some (Fin.ofNat (a * 16 + b) :: bs)
    | _, _, _ => none

/-! ## errors -/

/-- Go error values: a sentinel made by `errors.New`, identified by its text, or a cause
wrapped with a message. -/
inductive GoError where
  | new (text : String)
  | wrap (cause : GoError) (msg : String)
deriving DecidableEq

/-- The `Error()` text; a wrapped error prints as `msg: cause` (the form the tests compare). -/
def GoError.Error : GoError → String
  | .new text => text
  | .wrap cause msg => msg ++ ": " ++ cause.Error

/-- Package function `errors.Wrap(err, msg)`. -/
def errors.Wrap (err : GoError) (msg : String) : GoError := .wrap err msg

/-- Package function `errors.Is(err, target)`: `target` occurs on the unwrap chain of `err`. -/
def errors.Is (err target : GoError) : Bool :=
  err == target ||
    match err with
    | .new _ => false
    | .wrap cause _ => errors.Is cause target

/-- Sentinel `sql.ErrNoRows` of `database/sql`. -/
def sql.ErrNoRows : GoError := .new "sql: no rows in result set"

/-- Modelled from the spec: the sentinel `ErrNotFound` of package db, whose declaration is
not among the sources; its text is the one `TestArticleService_get` expects. -/
def ErrNotFound : GoError := .new "the record you are attempting to find or update is not found"

/-- Modelled from the spec: the sentinel `ErrNotCreated` of package db, whose declaration is
not among the sources; its text is the one `TestArticleService_create` expects. -/
def ErrNotCreated : GoError := .new "no new rows were created"

/-- Modelled from the spec: the sentinel `ErrNoRowsAffected` of package db, whose declaration
is not among the sources; its text is the one `TestArticleService_update` expects. -/
def ErrNoRowsAffected : GoError := .new "no rows affected"

/-- Modelled from the spec: the `InvalidIdentifier` error that identifier parsing fails
with; its declaration is not among the sources. -/
def ErrInvalidIdentifier : GoError := .new "invalid identifier"

/-- Modelled from the spec: the `NoAmbientTransaction` error ("no transaction in context")
of the transaction carrier; its declaration is not among the sources. -/
def ErrNoTransaction : GoError := .new "no transaction in context"

/-- Modelled from the spec: `ParseUUID` of package db, which is not among the sources.
It parses the canonical text form (8-4-4-4-12 hexadecimal digits) and fails with the
identifier-parsing error on anything else. -/
def ParseUUID (ID : String) : Except GoError UUID :=
  let cs := ID.data
  if cs.length = 36 ∧ cs.getD 8 ' ' = '-' ∧ cs.getD 13 ' ' = '-' ∧
      cs.getD 18 ' ' = '-' ∧ cs.getD 23 ' ' = '-' then
    match hexDecode (cs.take 8 ++ (cs.drop 9).take 4 ++ (cs.drop 14).take 4 ++
        (cs.drop 19).take 4 ++ cs.drop 24) with
    | some bs => if h : bs.length = 16 then .ok ⟨bs, h⟩ else .error ErrInvalidIdentifier
    | none => .error ErrInvalidIdentifier
  else .error ErrInvalidIdentifier

/-- The identifier used throughout `article_test.go`. -/
def testID : UUID :=
  ⟨[0x72, 0xbc, 0x87, 0xf3, 0x4a, 0x9f, 0x4d, 0x05, 0x93, 0xfe, 0x84, 0x4d, 0x3c, 0xd9, 0x4c, 0x65],
    by decide⟩

/-! ## article.go: the entity and its wire conversions -/

/-- Go struct `Article`: a row of the articles table. -/
structure Article where
  ID : UUID
  Name : String
deriving DecidableEq

/-- The composite literal `Article{}`: every field holds its zero value. -/
def Article.zero : Article := { ID := UUID.Nil, Name := "" }

/-- Go interface `protoArticle`: anything with a `GetName` method. The receiver's state
`π` is threaded through the call, so that an invocation is observable. -/
structure protoArticle (π : Type) where
  GetName : π → String × π

/-- Modelled from the spec: the response message `pb.ArticleResponse`, whose declaration
is not among the sources; outgoing responses expose an id string and a name string. -/
structure ArticleResponse where
  Id : String
  Name : String
deriving DecidableEq

/-- Go `NewArticle`: cast a proto article to its DB layer struct. -/
def NewArticle {π : Type} (ID : String) (proto : protoArticle π) (p : π) :
    (Option Article × Option GoError) × π :=
  match ParseUUID ID with
  | .error err => ((none, some err), p)
  | .ok mID =>
    let (name, p1) := proto.GetName p
    ((some { ID := mID, Name := name }, none), p1)

/-- Go `(*Article).ToProto`: cast a db article into a proto response object. -/
def Article.ToProto (m : Article) : ArticleResponse :=
  { Id := m.ID.String, Name := m.Name }

/-! ## database/sql as seen from the repository -/

/-- Handle `*sql.Tx` of an open transaction. -/
structure Tx where
  id : Nat
deriving DecidableEq

/-- Handle `*sql.Stmt`: the prepared query text, bound to a transaction or to the pool. -/
structure Stmt where
  query : String
  tx : Option Tx
deriving DecidableEq

/-- Go `tx.Stmt(stmt)`: the same statement bound to the transaction. -/
def Tx.Stmt (tx : Tx) (stmt : Stmt) : Stmt := { stmt with tx := some tx }

/-- Argument values handed to a statement (Go `any`): a `uuid.UUID` or a `string`. -/
inductive Value where
  | uuid (u : UUID)
  | str (s : String)
deriving DecidableEq

/-- Go `sql.Result` as far as the repository reads it: what `RowsAffected()` answers. -/
structure Result where
  RowsAffected : Except GoError Int
deriving DecidableEq

/-- The behaviour of `database/sql` and the driver below it, over a database state `σ`.
`ExecContext` is `stmt.ExecContext(ctx, args...)`; `QueryRowScan` is
`stmt.QueryRowContext(ctx, args...).Scan(&id, &name)`, answering either the error of
`Scan` or the two values it stores through its destination pointers. -/
structure DB (σ : Type) where
  ExecContext : Stmt → List Value → σ → Except GoError Result × σ
  QueryRowScan : Stmt → List Value → σ → Except GoError (UUID × String) × σ

/-- Go `context.Context` as far as the repository reads it: the attached transaction. -/
structure Context where
  tx : Option Tx
deriving DecidableEq

/-- Go `context.Background()`: nothing attached. -/
def Context.Background : Context := { tx := none }

/-- Modelled from the spec: `ToCtx` of the transaction carrier, which is not among the
sources: `attach(ctx, tx)` returns a derived context carrying the transaction. -/
def ToCtx (_ctx : Context) (tx : Tx) : Context := { tx := some tx }

/-- Modelled from the spec: `FromCtx` of the transaction carrier, which is not among the
sources: `retrieve(ctx)` yields the attached transaction and fails with the
"no transaction in context" condition when there is none. -/
def FromCtx (ctx : Context) : Except GoError Tx :=
  match ctx.tx with
  | some tx => .ok tx
  | none => .error ErrNoTransaction

/-- Go `fmt.Sprint(ID)` for a `uuid.UUID`, which is a `Stringer`. -/
def fmt.SprintUUID (ID : UUID) : String := ID.String

/-- Go `fmt.Sprint(input)` for a non-nil `*Article`: `&` and the fields in braces,
separated by a blank, the id through its `String` method. -/
def fmt.SprintArticle (input : Article) : String :=
  "&\x7b" ++ input.ID.String ++ " " ++ input.Name ++ "\x7d"

/-- Go struct `articleService`: the connection and the prepared statements by name.
The registry holds a statement for every operation name. -/
structure articleService (σ : Type) where
  db : DB σ
  stmts : String → Stmt

/-! ## article.go: the four operations -/

section service
variable {σ : Type}

set_option linter.unusedVariables false in
/-- Go `(*articleService).get`. The row is scanned through `&m.ArticleID` and `&m.Name`;
the function declares `p := Article{}`, never assigns to it and returns `&p`. -/
def articleService.get (svc : articleService σ) (ctx : Context) (useTx : Bool) (ID : UUID)
    (s : σ) : (Option Article × Option GoError) × σ :=
  let errMsg := fun (_ : Unit) => "Error executing get article - " ++ fmt.SprintUUID ID
  let sel : Except GoError Stmt :=
    if useTx then
      match FromCtx ctx with
      | .error err => .error err
      | .ok tx => .ok (tx.Stmt (svc.stmts "get-article"))
    else .ok (svc.stmts "get-article")
  match sel with
  | .error err => ((none, some err), s)
  | .ok stmt =>
    let p : Article := Article.zero
    match svc.db.QueryRowScan stmt [Value.uuid ID] s with
    | (.error err, s1) =>
      if errors.Is err sql.ErrNoRows then
        ((none, some (errors.Wrap ErrNotFound (errMsg ()))), s1)
      else
        ((none, some (errors.Wrap err (errMsg ()))), s1)
    | (.ok (m_ArticleID, m_Name), s1) => ((some p, none), s1)

/-- Go `(*articleService).Get`: fetch a single article from the db. -/
def articleService.Get (svc : articleService σ) (ctx : Context) (ID : UUID) (s : σ) :
    (Option Article × Option GoError) × σ :=
  svc.get ctx false ID s

/-- Go `(*articleService).GetTx`: fetch a single article inside of a tx from ctx. -/
def articleService.GetTx (svc : articleService σ) (ctx : Context) (ID : UUID) (s : σ) :
    (Option Article × Option GoError) × σ :=
  svc.get ctx true ID s

/-- Go `(*articleService).create`. The first argument of the execution is written
`input.ArticleID`, a selector that the struct `Article` (fields `ID` and `Name`) does not
declare; what it denotes is the parameter `ArticleID`. -/
def articleService.create (svc : articleService σ) (ArticleID : Article → Value)
    (ctx : Context) (useTx : Bool) (input : Article) (s : σ) : Option GoError × σ :=
  let errMsg := fun (_ : Unit) => "Error executing create article - " ++ fmt.SprintArticle input
  let sel : Except GoError Stmt :=
    if useTx then
      match FromCtx ctx with
      | .error err => .error err
      | .ok tx => .ok (tx.Stmt (svc.stmts "create-article"))
    else .ok (svc.stmts "create-article")
  match sel with
  | .error err => (some err, s)
  | .ok stmt =>
    match svc.db.ExecContext stmt [ArticleID input, Value.str input.Name] s with
    | (.error err, s1) => (some (errors.Wrap err (errMsg ())), s1)
    | (.ok result, s1) =>
      match result.RowsAffected with
      | .error err => (some (errors.Wrap err (errMsg ())), s1)
      | .ok rowCount =>
        if rowCount = 0 then (some (errors.Wrap ErrNotCreated (errMsg ())), s1)
        else (none, s1)

/-- Go `(*articleService).Create`: create a new article. -/
def articleService.Create (svc : articleService σ) (ArticleID : Article → Value)
    (ctx : Context) (input : Article) (s : σ) : Option GoError × σ :=
  svc.create ArticleID ctx false input s

/-- Go `(*articleService).CreateTx`: create a new article within a tx from ctx. -/
def articleService.CreateTx (svc : articleService σ) (ArticleID : Article → Value)
    (ctx : Context) (input : Article) (s : σ) : Option GoError × σ :=
  svc.create ArticleID ctx true input s

/-- Go `(*articleService).update`. The second argument of the execution is written
`input.ArticleID`, a selector that the struct `Article` (fields `ID` and `Name`) does not
declare; what it denotes is the parameter `ArticleID`. -/
def articleService.update (svc : articleService σ) (ArticleID : Article → Value)
    (ctx : Context) (useTx : Bool) (input : Article) (s : σ) : Option GoError × σ :=
  let errMsg := fun (_ : Unit) => "Error executing update article - " ++ fmt.SprintArticle input
  let sel : Except GoError Stmt :=
    if useTx then
      match FromCtx ctx with
      | .error err => .error err
      | .ok tx => .ok (tx.Stmt (svc.stmts "update-article"))
    else .ok (svc.stmts "update-article")
  match sel with
  | .error err => (some err, s)
  | .ok stmt =>
    match svc.db.ExecContext stmt [Value.str input.Name, ArticleID input] s with
    | (.error err, s1) => (some (errors.Wrap err (errMsg ())), s1)
    | (.ok result, s1) =>
      match result.RowsAffected with
      | .error err => (some (errors.Wrap err (errMsg ())), s1)
      | .ok rowCount =>
        if rowCount = 0 then (some (errors.Wrap ErrNoRowsAffected (errMsg ())), s1)
        else (none, s1)

/-- Go `(*articleService).Update`: update a single article row in the DB. -/
def articleService.Update (svc : articleService σ) (ArticleID : Article → Value)
    (ctx : Context) (input : Article) (s : σ) : Option GoError × σ :=
  svc.update ArticleID ctx false input s

/-- Go `(*articleService).UpdateTx`: update a single article row within a tx from ctx. -/
def articleService.UpdateTx (svc : articleService σ) (ArticleID : Article → Value)
    (ctx : Context) (input : Article) (s : σ) : Option GoError × σ :=
  svc.update ArticleID ctx true input s

/-- Go `(*articleService).delete`. -/
def articleService.delete (svc : articleService σ) (ctx : Context) (useTx : Bool) (ID : UUID)
    (s : σ) : Option GoError × σ :=
  let errMsg := fun (_ : Unit) => "Error executing delete article - " ++ ID.String
  let sel : Except GoError Stmt :=
    if useTx then
      match FromCtx ctx with
      | .error err => .error err
      | .ok tx => .ok (tx.Stmt (svc.stmts "delete-article"))
    else .ok (svc.stmts "delete-article")
  match sel with
  | .error err => (some err, s)
  | .ok stmt =>
    match svc.db.ExecContext stmt [Value.uuid ID] s with
    | (.error err, s1) => (some (errors.Wrap err (errMsg ())), s1)
    | (.ok result, s1) =>
      match result.RowsAffected with
      | .error err => (some (errors.Wrap err (errMsg ())), s1)
      | .ok rowCount =>
        if rowCount = 0 then (some (errors.Wrap ErrNotFound (errMsg ())), s1)
        else (none, s1)

/-- Go `(*articleService).Delete`: set deleted_at for a single articles row. -/
def articleService.Delete (svc : articleService σ) (ctx : Context) (ID : UUID) (s : σ) :
    Option GoError × σ :=
  svc.delete ctx false ID s

/-- Go `(*articleService).DeleteTx`: set deleted_at for a single row within a tx from ctx. -/
def articleService.DeleteTx (svc : articleService σ) (ctx : Context) (ID : UUID) (s : σ) :
    Option GoError × σ :=
  svc.delete ctx true ID s

end service

/-! ## statements.go and a driver that runs its statements on a table -/

/-- Go `statements`: the query text of every operation, by name. -/
def statements : List (String × String) :=
  [ ("create-article",
      "\n  INSERT INTO articles (article_id, name)\n    values(UUID_TO_BIN(?), ?)\n  "),
    ("delete-article",
      "\n  UPDATE\n    articles\n  SET\n    deleted_at = NOW()\n  WHERE\n" ++
      "    article_id = UUID_TO_BIN(?)\n    AND deleted_at IS NULL\n  "),
    ("get-article",
      "\n  SELECT\n    article_id, name\n  FROM\n    articles\n  WHERE\n" ++
      "    article_id = UUID_TO_BIN(?)\n    AND deleted_at IS NULL\n  "),
    ("update-article",
      "\n  UPDATE\n    articles\n  SET\n    name = ?\n  WHERE\n" ++
      "    article_id = UUID_TO_BIN(?)\n    AND deleted_at IS NULL\n  ") ]

/-- Query text registered under a name (Go map index; the empty string when absent). -/
def statementText (name : String) : String := (statements.lookup name).getD ""

/-- A row of the articles table: the columns `article_id`, `name` and nullable `deleted_at`. -/
structure Row where
  article_id : UUID
  name : String
  deleted_at : Option Nat
deriving DecidableEq

/-- State of the database: the articles table, the clock read by `NOW()`, whether
affected-row counts report matched rows (connection flag) or changed rows, and the
statements executed so far, latest last. -/
structure World where
  articles : List Row
  now : Nat
  foundRows : Bool
  log : List (Stmt × List Value)
deriving DecidableEq

/-- Driver error of an insert that violates the unique key on `article_id`. -/
def ErrDuplicateEntry : GoError := .new "Error 1062: Duplicate entry for key article_id"

/-- Driver error of `UUID_TO_BIN` on a text that is not a UUID. -/
def ErrIncorrectValue : GoError := .new "Error 1411: Incorrect string value for function uuid_to_bin"

/-- Error of a statement run with the wrong number of arguments or through the wrong call. -/
def ErrBadStatement : GoError := .new "sql: statement cannot be executed this way"

/-- SQL `UUID_TO_BIN(?)` on a bound argument: a `uuid.UUID` reaches the server as its
canonical text and converts back to its sixteen bytes; any other text is parsed. -/
def UUID_TO_BIN : Value → Option UUID
  | .uuid u => some u
  | .str s => (ParseUUID s).toOption

/-- Text that a bound argument stores into a string column. -/
def Value.text : Value → String
  | .uuid u => u.String
  | .str s => s

/-- The shared condition `article_id = UUID_TO_BIN(?) AND deleted_at IS NULL`. -/
def Row.live (id : UUID) (r : Row) : Bool := r.article_id == id && r.deleted_at.isNone

/-- Modelled from the spec: the unique key on `article_id` (the table definition is not
among the sources): an insert fails if a row with the same key already exists. -/
def uniqueKeyViolated (articles : List Row) (id : UUID) : Bool :=
  articles.any (fun r => r.article_id == id)

/-- Statement execution against the table. The transaction binding of the statement is
recorded in the log and otherwise ignored: calls are sequential and see one table. -/
def sqlExec (stmt : Stmt) (args : List Value) (w : World) : Except GoError Result × World :=
  let w0 : World := { w with log := w.log ++ [(stmt, args)] }
  if stmt.query = statementText "create-article" then
    match args with
    | [a, b] =>
      match UUID_TO_BIN a with
      | none => (.error ErrIncorrectValue, w0)
      | some id =>
        if uniqueKeyViolated w.articles id then (.error ErrDuplicateEntry, w0)
        else
          (.ok { RowsAffected := .ok 1 },
            { w0 with articles :=
                w.articles ++ [{ article_id := id, name := b.text, deleted_at := none }] })
    | _ => (.error ErrBadStatement, w0)
  else if stmt.query = statementText "delete-article" then
    match args with
    | [a] =>
      match UUID_TO_BIN a with
      | none => (.error ErrIncorrectValue, w0)
      | some id =>
        (.ok { RowsAffected := .ok (Int.ofNat (w.articles.countP (Row.live id))) },
          { w0 with articles :=
              w.articles.map (fun r =>
                if r.live id then { r with deleted_at := some w.now } else r) })
    | _ => (.error ErrBadStatement, w0)
  else if stmt.query = statementText "update-article" then
    match args with
    | [a, b] =>
      match UUID_TO_BIN b with
      | none => (.error ErrIncorrectValue, w0)
      | some id =>
        (.ok { RowsAffected := .ok (Int.ofNat (w.articles.countP (fun r =>
            r.live id && (w.foundRows || r.name != a.text)))) },
          { w0 with articles :=
              w.articles.map (fun r => if r.live id then { r with name := a.text } else r) })
    | _ => (.error ErrBadStatement, w0)
  else (.error ErrBadStatement, w0)

/-- Single-row query and scan against the table: the first selected row, or
`sql.ErrNoRows` when the query selects none. -/
def sqlQueryRowScan (stmt : Stmt) (args : List Value) (w : World) :
    Except GoError (UUID × String) × World :=
  let w0 : World := { w with log := w.log ++ [(stmt, args)] }
  if stmt.query = statementText "get-article" then
    match args with
    | [a] =>
      match UUID_TO_BIN a with
      | none => (.error ErrIncorrectValue, w0)
      | some id =>
        match w.articles.find? (Row.live id) with
        | none => (.error sql.ErrNoRows, w0)
        | some r => (.ok (r.article_id, r.name), w0)
    | _ => (.error ErrBadStatement, w0)
  else (.error ErrBadStatement, w0)

/-- The driver that runs the statements of `statements.go` on a `World`. -/
def sqlDB : DB World := { ExecContext := sqlExec, QueryRowScan := sqlQueryRowScan }

/-- The repository as the store constructs it: every statement of `statements`
prepared against the connection pool. -/
def newArticleService : articleService World :=
  { db := sqlDB, stmts := fun name => { query := statementText name, tx := none } }

/-- An empty database. -/
def World.empty : World := { articles := [], now := 0, foundRows := false, log := [] }

/-- A table holding the one live row of the tests. -/
def World.testRow : World :=
  { articles := [{ article_id := testID, name := "Foobar", deleted_at := none }],
    now := 0, foundRows := false, log := [] }

/-- A driver that answers every call with a fixed outcome, as the mock of the tests does. -/
def mockDB (exec : Except GoError Result) (row : Except GoError (UUID × String)) : DB Unit :=
  { ExecContext := fun _ _ s => (exec, s), QueryRowScan := fun _ _ s => (row, s) }

/-- The repository over the mock driver, its statements prepared from `statements`. -/
def mockService (exec : Except GoError Result) (row : Except GoError (UUID × String)) :
    articleService Unit :=
  { db := mockDB exec row, stmts := fun name => { query := statementText name, tx := none } }

/-- A proto object that counts the calls of its name accessor. -/
def countingProto (name : String) : protoArticle Nat :=
  { GetName := fun calls => (name, calls + 1) }

/-- A driver error other than `sql.ErrNoRows`. -/
def ErrBadConnection : GoError := .new "driver: bad connection"

/-- The reading of the selector `input.ArticleID` as the declared field `ID`: the value
that the arguments of `TestArticleService_create` and `TestArticleService_update` expect. -/
def selectorAsID (input : Article) : Value := Value.uuid input.ID

/-- The reading of the selector `input.ArticleID` as a field of its own of type
`uuid.UUID`: the composite literal `&Article{ID: articleID, Name: "Foobar"}` of the tests
leaves such a field at its zero value. -/
def selectorAsOwnField (_input : Article) : Value := Value.uuid UUID.Nil

/-! ## Facts about the model shared by the proofs below -/

section lemmas
variable {σ : Type}

/-- Decoding a digit of the table gives back the nibble. -/
theorem hexVal_hexDigit : ∀ n, n < 16 → hexVal (hexDigit n) = some n := by decide

/-- A byte is its high nibble times sixteen plus its low nibble. -/
theorem ofNat_nibbles (b : Fin 256) : (Fin.ofNat (b.val / 16 * 16 + b.val % 16) : Fin 256) = b := by
  apply Fin.ext
  simp only [Fin.ofNat, Nat.div_add_mod']
  exact Nat.mod_eq_of_lt b.isLt

/-- Decoding inverts encoding. -/
theorem hexDecode_hexEncode (bs : List (Fin 256)) : hexDecode (hexEncode bs) = some bs := by
  induction bs with
  | nil => rfl
  | cons b bs ih =>
    have h1 : hexVal (hexDigit (b.val / 16)) = some (b.val / 16) :=
      hexVal_hexDigit _ (by omega)
    have h2 : hexVal (hexDigit (b.val % 16)) = some (b.val % 16) :=
      hexVal_hexDigit _ (by omega)
    simp only [hexEncode, hexDecode, h1, h2, ih, ofNat_nibbles]

/-- The text form of a UUID parses back to it. -/
theorem ParseUUID_String (u : UUID) : ParseUUID u.String = .ok u := by
  obtain ⟨bs, hbs⟩ := u
  match bs, hbs with
  | [b0, b1, b2, b3, b4, b5, b6, b7, b8, b9, b10, b11, b12, b13, b14, b15], hbs =>
    have hd := hexDecode_hexEncode [b0, b1, b2, b3, b4, b5, b6, b7, b8, b9, b10, b11, b12, b13, b14, b15]
    simp only [hexEncode] at hd
    simp [ParseUUID, UUID.String, encodeHex, hexEncode, hd]

/-- Every statement execution appends exactly its own call to the log. -/
theorem sqlExec_log (stmt : Stmt) (args : List Value) (w : World) :
    (sqlExec stmt args w).2.log = w.log ++ [(stmt, args)] := by
  unfold sqlExec
  repeat (first | rfl | split)

/-- Every query appends exactly its own call to the log and leaves the table alone. -/
theorem sqlQueryRowScan_world (stmt : Stmt) (args : List Value) (w : World) :
    (sqlQueryRowScan stmt args w).2 = { w with log := w.log ++ [(stmt, args)] } := by
  unfold sqlQueryRowScan
  repeat (first | rfl | split)

/-- The text of delete-article is not the text of create-article. -/
theorem statementText_delete_ne_create :
    statementText "delete-article" ≠ statementText "create-article" := by decide

/-- The create-article statement with a UUID and a string argument on the table. -/
theorem sqlExec_create (tx : Option Tx) (ID : UUID) (name : String) (w : World) :
    sqlExec { query := statementText "create-article", tx := tx }
        [Value.uuid ID, Value.str name] w =
      if uniqueKeyViolated w.articles ID then
        (.error ErrDuplicateEntry,
          { w with log := w.log ++ [({ query := statementText "create-article", tx := tx },
            [Value.uuid ID, Value.str name])] })
      else
        (.ok { RowsAffected := .ok 1 },
          { w with
            log := w.log ++ [({ query := statementText "create-article", tx := tx },
              [Value.uuid ID, Value.str name])]
            articles := w.articles ++ [{ article_id := ID, name := name, deleted_at := none }] }) := by
  unfold sqlExec
  simp [UUID_TO_BIN, Value.text]

/-- The delete-article statement with a UUID argument on the table. -/
theorem sqlExec_delete (tx : Option Tx) (ID : UUID) (w : World) :
    sqlExec { query := statementText "delete-article", tx := tx } [Value.uuid ID] w =
      (.ok { RowsAffected := .ok (Int.ofNat (w.articles.countP (Row.live ID))) },
        { w with
          log := w.log ++ [({ query := statementText "delete-article", tx := tx }, [Value.uuid ID])]
          articles := w.articles.map (fun r =>
            if r.live ID then { r with deleted_at := some w.now } else r) }) := by
  unfold sqlExec
  simp [statementText_delete_ne_create, UUID_TO_BIN]

/-- The get-article query with a UUID argument on the table. -/
theorem sqlQueryRowScan_get (tx : Option Tx) (ID : UUID) (w : World) :
    (sqlQueryRowScan { query := statementText "get-article", tx := tx } [Value.uuid ID] w).1 =
      match w.articles.find? (Row.live ID) with
      | none => .error sql.ErrNoRows
      | some r => .ok (r.article_id, r.name) := by
  unfold sqlQueryRowScan
  simp only [if_true, UUID_TO_BIN]
  split <;> rfl

/-- A row that went through the soft delete is not live under the id. -/
theorem live_softDelete (ID : UUID) (now : Nat) (r : Row) :
    Row.live ID (if r.live ID then { r with deleted_at := some now } else r) = false := by
  by_cases h : r.live ID = true
  · rw [if_pos h]
    simp [Row.live]
  · rw [if_neg h]
    simpa using h

/-- After the soft delete no row is live under the id. -/
theorem countP_live_softDelete (ID : UUID) (now : Nat) (rows : List Row) :
    (rows.map (fun r => if r.live ID then { r with deleted_at := some now } else r)).countP
      (Row.live ID) = 0 := by
  rw [List.countP_eq_zero]
  intro r hr
  obtain ⟨r0, -, rfl⟩ := List.mem_map.mp hr
  simp [live_softDelete]

/-- What `Create` does on the table, with the selector `input.ArticleID` read as the field
`ID`: a duplicate key is the wrapped driver error, anything else appends the live row and
returns nil. -/
theorem Create_sqlDB (ctx : Context) (input : Article) (w : World) :
    newArticleService.Create selectorAsID ctx input w =
      if uniqueKeyViolated w.articles input.ID then
        (some (errors.Wrap ErrDuplicateEntry
            ("Error executing create article - " ++ fmt.SprintArticle input)),
          { w with log := w.log ++ [({ query := statementText "create-article", tx := none },
            [Value.uuid input.ID, Value.str input.Name])] })
      else
        (none,
          { w with
            log := w.log ++ [({ query := statementText "create-article", tx := none },
              [Value.uuid input.ID, Value.str input.Name])]
            articles := w.articles ++
              [{ article_id := input.ID, name := input.Name, deleted_at := none }] }) := by
  unfold articleService.Create articleService.create
  simp only [Bool.false_eq_true, if_false, newArticleService, sqlDB, selectorAsID]
  rw [sqlExec_create]
  by_cases hk : uniqueKeyViolated w.articles input.ID = true
  · simp [hk]
  · simp [hk]

/-- On the table, with the selector `input.ArticleID` read as the field `ID`, the row that
a successful `Create` inserted is the row the get-article query yields right afterwards. -/
theorem query_after_Create (ctx : Context) (input : Article) (w : World)
    (h : (newArticleService.Create selectorAsID ctx input w).1 = none) :
    (sqlQueryRowScan (newArticleService.stmts "get-article") [Value.uuid input.ID]
      (newArticleService.Create selectorAsID ctx input w).2).1 = .ok (input.ID, input.Name) := by
  rw [Create_sqlDB] at h ⊢
  by_cases hk : uniqueKeyViolated w.articles input.ID = true
  · simp [hk] at h
  · simp only [hk, if_false, newArticleService, Bool.false_eq_true]
    rw [sqlQueryRowScan_get]
    have hnone : w.articles.find? (Row.live input.ID) = none := by
      rw [List.find?_eq_none]
      intro r hr
      have : uniqueKeyViolated w.articles input.ID = false := by simpa using hk
      simp only [uniqueKeyViolated, List.any_eq_false, beq_iff_eq] at this
      simp [Row.live, this r hr]
    simp [List.find?_append, hnone, Row.live]

/-- On a row the query yields, `Get` answers the untouched `Article{}` and no error. -/
theorem Get_ok_row (svc : articleService σ) (ctx : Context) (ID : UUID) (s s1 : σ)
    (row : UUID × String)
    (h : svc.db.QueryRowScan (svc.stmts "get-article") [Value.uuid ID] s = (.ok row, s1)) :
    svc.Get ctx ID s = ((some Article.zero, none), s1) := by
  unfold articleService.Get articleService.get
  simp only [Bool.false_eq_true, if_false]
  rw [h]

/-- On a row the query yields inside the attached transaction, `GetTx` answers the
untouched `Article{}` and no error. -/
theorem GetTx_ok_row (svc : articleService σ) (ctx : Context) (tx : Tx) (ID : UUID) (s s1 : σ)
    (row : UUID × String) (hctx : ctx.tx = some tx)
    (h : svc.db.QueryRowScan (tx.Stmt (svc.stmts "get-article")) [Value.uuid ID] s =
      (.ok row, s1)) :
    svc.GetTx ctx ID s = ((some Article.zero, none), s1) := by
  unfold articleService.GetTx articleService.get
  simp only [if_true, FromCtx, hctx]
  rw [h]

/-- On the table, with the selector `input.ArticleID` read as the field `ID`, `Get` right
after a successful `Create` answers the untouched `Article{}`, whatever was created. -/
theorem Get_after_Create (ctx : Context) (input : Article) (w : World)
    (h : (newArticleService.Create selectorAsID ctx input w).1 = none) :
    (newArticleService.Get ctx input.ID (newArticleService.Create selectorAsID ctx input w).2).1 =
      (some Article.zero, none) := by
  have hq := query_after_Create ctx input w h
  unfold articleService.Get articleService.get
  simp only [Bool.false_eq_true, if_false]
  revert hq
  simp only [newArticleService, sqlDB]
  generalize sqlQueryRowScan _ _ _ = r
  rcases r with ⟨r1, w1⟩
  intro hq
  simp only at hq
  subst hq
  rfl

/-- What `Create` makes of the execution, for whatever the selector `input.ArticleID`
denotes and for every driver: the state is the one the execution of the create-article
statement leaves; nil is returned exactly when the execution and `RowsAffected` report no
error and the count is not zero; a zero count gives `ErrNotCreated`, and an error of the
execution or of `RowsAffected` gives that error, each wrapped with
"Error executing create article - " and the printed input. -/
theorem Create_result (svc : articleService σ) (ArticleID : Article → Value) (ctx : Context)
    (input : Article) (s : σ) :
    (svc.Create ArticleID ctx input s).2 =
        (svc.db.ExecContext (svc.stmts "create-article") [ArticleID input, Value.str input.Name] s).2 ∧
      ((svc.Create ArticleID ctx input s).1 = none ↔
        ∃ res n, (svc.db.ExecContext (svc.stmts "create-article") [ArticleID input, Value.str input.Name] s).1 = .ok res ∧
          res.RowsAffected = .ok n ∧ n ≠ 0) ∧
      (∀ res, (svc.db.ExecContext (svc.stmts "create-article") [ArticleID input, Value.str input.Name] s).1 = .ok res →
          res.RowsAffected = .ok 0 →
          (svc.Create ArticleID ctx input s).1 = some (errors.Wrap ErrNotCreated
            ("Error executing create article - " ++ fmt.SprintArticle input))) ∧
      (∀ e, (svc.db.ExecContext (svc.stmts "create-article") [ArticleID input, Value.str input.Name] s).1 = .error e →
          (svc.Create ArticleID ctx input s).1 = some (errors.Wrap e
            ("Error executing create article - " ++ fmt.SprintArticle input))) ∧
      (∀ res e, (svc.db.ExecContext (svc.stmts "create-article") [ArticleID input, Value.str input.Name] s).1 = .ok res →
          res.RowsAffected = .error e →
          (svc.Create ArticleID ctx input s).1 = some (errors.Wrap e
            ("Error executing create article - " ++ fmt.SprintArticle input))) := by
  unfold articleService.Create articleService.create
  simp only [Bool.false_eq_true, if_false]
  generalize svc.db.ExecContext (svc.stmts "create-article") [ArticleID input, Value.str input.Name] s = r
  rcases r with ⟨e | ⟨e | n⟩, s1⟩
  · simp
  · simp
    rintro res e1 rfl h2
    simp at h2
    rw [h2]
  · by_cases hn : n = 0 <;> simp [hn] <;> rintro res e1 rfl h2 <;> simp at h2

/-- What `Update` makes of the execution, for whatever the selector `input.ArticleID`
denotes and for every driver: the state is the one the execution of the update-article
statement leaves; nil is returned exactly when the execution and `RowsAffected` report no
error and the count is not zero; a zero count gives `ErrNoRowsAffected`, and an error of the
execution or of `RowsAffected` gives that error, each wrapped with
"Error executing update article - " and the printed input. -/
theorem Update_result (svc : articleService σ) (ArticleID : Article → Value) (ctx : Context)
    (input : Article) (s : σ) :
    (svc.Update ArticleID ctx input s).2 =
        (svc.db.ExecContext (svc.stmts "update-article") [Value.str input.Name, ArticleID input] s).2 ∧
      ((svc.Update ArticleID ctx input s).1 = none ↔
        ∃ res n, (svc.db.ExecContext (svc.stmts "update-article") [Value.str input.Name, ArticleID input] s).1 = .ok res ∧
          res.RowsAffected = .ok n ∧ n ≠ 0) ∧
      (∀ res, (svc.db.ExecContext (svc.stmts "update-article") [Value.str input.Name, ArticleID input] s).1 = .ok res →
          res.RowsAffected = .ok 0 →
          (svc.Update ArticleID ctx input s).1 = some (errors.Wrap ErrNoRowsAffected
            ("Error executing update article - " ++ fmt.SprintArticle input))) ∧
      (∀ e, (svc.db.ExecContext (svc.stmts "update-article") [Value.str input.Name, ArticleID input] s).1 = .error e →
          (svc.Update ArticleID ctx input s).1 = some (errors.Wrap e
            ("Error executing update article - " ++ fmt.SprintArticle input))) ∧
      (∀ res e, (svc.db.ExecContext (svc.stmts "update-article") [Value.str input.Name, ArticleID input] s).1 = .ok res →
          res.RowsAffected = .error e →
          (svc.Update ArticleID ctx input s).1 = some (errors.Wrap e
            ("Error executing update article - " ++ fmt.SprintArticle input))) := by
  unfold articleService.Update articleService.update
  simp only [Bool.false_eq_true, if_false]
  generalize svc.db.ExecContext (svc.stmts "update-article") [Value.str input.Name, ArticleID input] s = r
  rcases r with ⟨e | ⟨e | n⟩, s1⟩
  · simp
  · simp
    rintro res e1 rfl h2
    simp at h2
    rw [h2]
  · by_cases hn : n = 0 <;> simp [hn] <;> rintro res e1 rfl h2 <;> simp at h2

/-- The only Article that `Get` ever returns is the untouched `Article{}`. -/
theorem Get_article_none_or_zero (svc : articleService σ) (ctx : Context) (ID : UUID) (s : σ) :
    (svc.Get ctx ID s).1.1 = none ∨ (svc.Get ctx ID s).1.1 = some Article.zero := by
  unfold articleService.Get articleService.get
  simp only [Bool.false_eq_true, if_false]
  generalize svc.db.QueryRowScan (svc.stmts "get-article") [Value.uuid ID] s = r
  rcases r with ⟨err | ⟨a, b⟩, s1⟩
  · left
    by_cases hIs : errors.Is err sql.ErrNoRows = true <;> simp [hIs]
  · right
    rfl

/-- The guard shared by the four operations: when the carrier finds no transaction and
reports `e`, the transactional entry points return `e` itself and the state they were
given, whatever the driver. -/
theorem Tx_guard (svc : articleService σ) (ArticleID : Article → Value) (ctx : Context)
    (ID : UUID) (input : Article) (s : σ) (e : GoError) (h : FromCtx ctx = .error e) :
    svc.GetTx ctx ID s = ((none, some e), s) ∧
      svc.CreateTx ArticleID ctx input s = (some e, s) ∧
      svc.UpdateTx ArticleID ctx input s = (some e, s) ∧
      svc.DeleteTx ctx ID s = (some e, s) := by
  simp [articleService.GetTx, articleService.get, articleService.CreateTx,
    articleService.create, articleService.UpdateTx, articleService.update,
    articleService.DeleteTx, articleService.delete, h]

/-- The carrier fails exactly on a context with no transaction attached. -/
theorem FromCtx_error_iff (ctx : Context) (e : GoError) :
    FromCtx ctx = .error e ↔ ctx.tx = none ∧ e = ErrNoTransaction := by
  unfold FromCtx
  cases ctx.tx with
  | none => simp [eq_comm]
  | some tx => simp

end lemmas

/-! ## The claims -/

section claims
variable {σ : Type}

/-- C1: on the empty table, `Create` of the article (72bc87f3-4a9f-4d05-93fe-844d3cd94c65,
"Foobar") returns no error and the `Get` of that id issued right afterwards returns no
error and the article with the zero id and the empty name, which is not the article
created; this with the selector `input.ArticleID` of `create` read as the field `ID`.
Read as a field of its own, `Create` returns no error either, the row is stored under
the zero UUID, and the `Get` returns a nil Article and the wrapped `ErrNotFound`. -/
theorem Create_then_Get_loses_article :
    (newArticleService.Create selectorAsID Context.Background ⟨testID, "Foobar"⟩ World.empty).1 =
        none ∧
      (newArticleService.Get Context.Background testID
        (newArticleService.Create selectorAsID Context.Background ⟨testID, "Foobar"⟩
          World.empty).2).1 =
        (some { ID := UUID.Nil, Name := "" }, none) ∧
      UUID.Nil ≠ testID ∧ "" ≠ "Foobar" ∧
      (newArticleService.Create selectorAsOwnField Context.Background ⟨testID, "Foobar"⟩
        World.empty).1 = none ∧
      (newArticleService.Get Context.Background testID
        (newArticleService.Create selectorAsOwnField Context.Background ⟨testID, "Foobar"⟩
          World.empty).2).1 =
        (none, some (errors.Wrap ErrNotFound
          "Error executing get article - 72bc87f3-4a9f-4d05-93fe-844d3cd94c65")) := by
  decide

/-- C2: on the table whose one live row is (72bc87f3-4a9f-4d05-93fe-844d3cd94c65,
"Foobar"), the get-article query yields that row, and both `Get` and `GetTx` with a
transaction attached return no error and the article with the zero id and the empty
name instead of the row. -/
theorem Get_returns_zero_article :
    (sqlQueryRowScan (newArticleService.stmts "get-article") [Value.uuid testID]
        World.testRow).1 = .ok (testID, "Foobar") ∧
      (newArticleService.Get Context.Background testID World.testRow).1 =
        (some { ID := UUID.Nil, Name := "" }, none) ∧
      (newArticleService.GetTx (ToCtx Context.Background ⟨1⟩) testID World.testRow).1 =
        (some { ID := UUID.Nil, Name := "" }, none) ∧
      UUID.Nil ≠ testID ∧ "" ≠ "Foobar" := by
  decide

/-- C3: when the get-article query fails with error `err`, `Get` returns a nil Article and
`err` wrapped with "Error executing get article - " and the id in text form, except that an
error matching `sql.ErrNoRows` (zero rows) is replaced by `ErrNotFound` under the same
message; `sql.ErrNoRows` itself matches. -/
theorem Get_error_mapping (svc : articleService σ) (ctx : Context) (ID : UUID) (s s1 : σ)
    (err : GoError)
    (h : svc.db.QueryRowScan (svc.stmts "get-article") [Value.uuid ID] s = (.error err, s1)) :
    svc.Get ctx ID s =
        ((none, some (errors.Wrap (if errors.Is err sql.ErrNoRows then ErrNotFound else err)
          ("Error executing get article - " ++ ID.String))), s1) ∧
      errors.Is sql.ErrNoRows sql.ErrNoRows = true := by
  refine ⟨?_, by decide⟩
  unfold articleService.Get articleService.get
  simp only [Bool.false_eq_true, if_false]
  rw [h]
  simp only [fmt.SprintUUID]
  by_cases hIs : errors.Is err sql.ErrNoRows = true <;> simp [hIs]

/-- Witness of C3: zero rows on the empty table give `ErrNotFound` with the text the test
expects, and a bad connection is wrapped as it is. -/
theorem Get_error_mapping_witness :
    (newArticleService.Get Context.Background testID World.empty).1 =
        (none, some (errors.Wrap ErrNotFound
          "Error executing get article - 72bc87f3-4a9f-4d05-93fe-844d3cd94c65")) ∧
      (errors.Wrap ErrNotFound
          "Error executing get article - 72bc87f3-4a9f-4d05-93fe-844d3cd94c65").Error =
        "Error executing get article - 72bc87f3-4a9f-4d05-93fe-844d3cd94c65: " ++
          "the record you are attempting to find or update is not found" ∧
      (mockService (.error ErrBadConnection) (.error ErrBadConnection)).Get
          Context.Background testID () =
        ((none, some (errors.Wrap ErrBadConnection
          "Error executing get article - 72bc87f3-4a9f-4d05-93fe-844d3cd94c65")), ()) := by
  have h1 := (Get_error_mapping newArticleService Context.Background testID World.empty
    (sqlQueryRowScan (newArticleService.stmts "get-article") [Value.uuid testID] World.empty).2
    sql.ErrNoRows (by decide)).1
  have h2 := (Get_error_mapping (mockService (.error ErrBadConnection) (.error ErrBadConnection))
    Context.Background testID () () ErrBadConnection rfl).1
  refine ⟨?_, by decide, ?_⟩
  · rw [h1]
    decide
  · rw [h2]
    decide

/-- C4: `Create` runs the create-article statement once, with the arguments
(`input.ArticleID`, name): the id position holds what the selector `input.ArticleID` denotes, which the
struct `Article` does not declare. Read as a field of its own, it is the zero UUID for the
article of the tests, and the statement runs with the zero UUID where
`TestArticleService_create` expects 72bc87f3-4a9f-4d05-93fe-844d3cd94c65. -/
theorem Create_binds_undeclared_selector (ArticleID : Article → Value) (ctx : Context)
    (input : Article) (w : World) :
    (newArticleService.Create ArticleID ctx input w).2.log =
        w.log ++ [(newArticleService.stmts "create-article",
          [ArticleID input, Value.str input.Name])] ∧
      (newArticleService.Create selectorAsOwnField Context.Background ⟨testID, "Foobar"⟩
          World.empty).2.log =
        [(newArticleService.stmts "create-article",
          [Value.uuid UUID.Nil, Value.str "Foobar"])] ∧
      [Value.uuid UUID.Nil, Value.str "Foobar"] ≠
        [Value.uuid testID, Value.str "Foobar"] := by
  refine ⟨?_, ?_, by decide⟩
  · rw [(Create_result newArticleService ArticleID ctx input w).1]
    exact sqlExec_log _ _ w
  · rw [(Create_result newArticleService selectorAsOwnField Context.Background
      ⟨testID, "Foobar"⟩ World.empty).1]
    exact sqlExec_log _ _ World.empty

/-- C5: `Update` runs the update-article statement once, with the arguments
(name, `input.ArticleID`): the id position holds what the selector `input.ArticleID` denotes, which the
struct `Article` does not declare. Read as a field of its own, it is the zero UUID for the
article of the tests, and the statement runs with the zero UUID where
`TestArticleService_update` expects 72bc87f3-4a9f-4d05-93fe-844d3cd94c65. -/
theorem Update_binds_undeclared_selector (ArticleID : Article → Value) (ctx : Context)
    (input : Article) (w : World) :
    (newArticleService.Update ArticleID ctx input w).2.log =
        w.log ++ [(newArticleService.stmts "update-article",
          [Value.str input.Name, ArticleID input])] ∧
      (newArticleService.Update selectorAsOwnField Context.Background ⟨testID, "Foobar"⟩
          World.empty).2.log =
        [(newArticleService.stmts "update-article",
          [Value.str "Foobar", Value.uuid UUID.Nil])] ∧
      [Value.str "Foobar", Value.uuid UUID.Nil] ≠
        [Value.str "Foobar", Value.uuid testID] := by
  refine ⟨?_, ?_, by decide⟩
  · rw [(Update_result newArticleService ArticleID ctx input w).1]
    exact sqlExec_log _ _ w
  · rw [(Update_result newArticleService selectorAsOwnField Context.Background
      ⟨testID, "Foobar"⟩ World.empty).1]
    exact sqlExec_log _ _ World.empty

/-- C6: `Delete` runs the delete-article statement once with the id; zero affected rows
give `ErrNotFound` wrapped with "Error executing delete article - " and the id in text
form, a non-zero count gives nil, and a driver error is wrapped with that message. On the
table, `Delete` of an id with a live row returns nil, and a `Delete` of the same id issued
right after any `Delete` of it returns the wrapped `ErrNotFound` and changes no row. -/
theorem Delete_outcome (svc : articleService σ) (ctx : Context) (ID : UUID) (s : σ)
    (w : World) :
    (svc.Delete ctx ID s).2 =
        (svc.db.ExecContext (svc.stmts "delete-article") [Value.uuid ID] s).2 ∧
      (∀ res, (svc.db.ExecContext (svc.stmts "delete-article") [Value.uuid ID] s).1 = .ok res →
          res.RowsAffected = .ok 0 →
          (svc.Delete ctx ID s).1 = some (errors.Wrap ErrNotFound
            ("Error executing delete article - " ++ ID.String))) ∧
      (∀ res n, (svc.db.ExecContext (svc.stmts "delete-article") [Value.uuid ID] s).1 = .ok res →
          res.RowsAffected = .ok n → n ≠ 0 → (svc.Delete ctx ID s).1 = none) ∧
      (∀ e, (svc.db.ExecContext (svc.stmts "delete-article") [Value.uuid ID] s).1 = .error e →
          (svc.Delete ctx ID s).1 = some (errors.Wrap e
            ("Error executing delete article - " ++ ID.String))) ∧
      (w.articles.any (Row.live ID) = true → (newArticleService.Delete ctx ID w).1 = none) ∧
      (newArticleService.Delete ctx ID (newArticleService.Delete ctx ID w).2).1 =
        some (errors.Wrap ErrNotFound ("Error executing delete article - " ++ ID.String)) ∧
      (newArticleService.Delete ctx ID (newArticleService.Delete ctx ID w).2).2.articles =
        (newArticleService.Delete ctx ID w).2.articles := by
  have hsql : ∀ v : World, newArticleService.Delete ctx ID v =
      (if v.articles.countP (Row.live ID) = 0 then
          some (errors.Wrap ErrNotFound ("Error executing delete article - " ++ ID.String))
        else none,
        { v with
          log := v.log ++ [({ query := statementText "delete-article", tx := none },
            [Value.uuid ID])]
          articles := v.articles.map (fun r =>
            if r.live ID then { r with deleted_at := some v.now } else r) }) := by
    intro v
    unfold articleService.Delete articleService.delete
    simp only [Bool.false_eq_true, if_false, newArticleService, sqlDB]
    rw [sqlExec_delete]
    by_cases hc : v.articles.countP (Row.live ID) = 0 <;> simp [hc]
  refine ⟨?_, ?_, ?_, ?_, ?_, ?_, ?_⟩
  · unfold articleService.Delete articleService.delete
    simp only [Bool.false_eq_true, if_false]
    generalize svc.db.ExecContext (svc.stmts "delete-article") [Value.uuid ID] s = r
    rcases r with ⟨e | ⟨e | n⟩, s1⟩
    · simp
    · simp
    · by_cases hn : n = 0 <;> simp [hn]
  · intro res h1 h2
    unfold articleService.Delete articleService.delete
    simp only [Bool.false_eq_true, if_false]
    revert h1
    generalize svc.db.ExecContext (svc.stmts "delete-article") [Value.uuid ID] s = r
    rcases r with ⟨r1, s1⟩
    intro h1
    simp only at h1
    subst h1
    simp [h2]
  · intro res n h1 h2 hn
    unfold articleService.Delete articleService.delete
    simp only [Bool.false_eq_true, if_false]
    revert h1
    generalize svc.db.ExecContext (svc.stmts "delete-article") [Value.uuid ID] s = r
    rcases r with ⟨r1, s1⟩
    intro h1
    simp only at h1
    subst h1
    simp [h2, hn]
  · intro e h1
    unfold articleService.Delete articleService.delete
    simp only [Bool.false_eq_true, if_false]
    revert h1
    generalize svc.db.ExecContext (svc.stmts "delete-article") [Value.uuid ID] s = r
    rcases r with ⟨r1, s1⟩
    intro h1
    simp only at h1
    subst h1
    simp
  · intro hany
    rw [hsql]
    have hpos : 0 < w.articles.countP (Row.live ID) := by
      rw [List.countP_pos_iff]
      simpa using hany
    simp [Nat.ne_of_gt hpos]
  · rw [hsql, hsql]
    simp only [countP_live_softDelete, if_true]
  · rw [hsql, hsql]
    simp only [List.map_map]
    apply List.map_congr_left
    intro r _
    simp only [Function.comp]
    rw [if_neg (by simp [live_softDelete])]

/-- Witness of C6: on the table with the one live row of the tests the first `Delete`
returns nil and the second the wrapped `ErrNotFound`, with the text the test expects; on
the mock driver zero affected rows give the wrapped `ErrNotFound`, one affected row gives
nil and a driver error is wrapped. -/
theorem Delete_outcome_witness :
    (newArticleService.Delete Context.Background testID World.testRow).1 = none ∧
      (newArticleService.Delete Context.Background testID
        (newArticleService.Delete Context.Background testID World.testRow).2).1 =
        some (errors.Wrap ErrNotFound
          "Error executing delete article - 72bc87f3-4a9f-4d05-93fe-844d3cd94c65") ∧
      (errors.Wrap ErrNotFound
          "Error executing delete article - 72bc87f3-4a9f-4d05-93fe-844d3cd94c65").Error =
        "Error executing delete article - 72bc87f3-4a9f-4d05-93fe-844d3cd94c65: " ++
          "the record you are attempting to find or update is not found" ∧
      ((mockService (.ok ⟨.ok 0⟩) (.error sql.ErrNoRows)).Delete Context.Background
        testID ()).1 = some (errors.Wrap ErrNotFound
          "Error executing delete article - 72bc87f3-4a9f-4d05-93fe-844d3cd94c65") ∧
      ((mockService (.ok ⟨.ok 1⟩) (.error sql.ErrNoRows)).Delete Context.Background
        testID ()).1 = none ∧
      ((mockService (.error ErrBadConnection) (.error sql.ErrNoRows)).Delete Context.Background
        testID ()).1 = some (errors.Wrap ErrBadConnection
          "Error executing delete article - 72bc87f3-4a9f-4d05-93fe-844d3cd94c65") := by
  have h := Delete_outcome newArticleService Context.Background testID World.testRow World.testRow
  have h1 := (Delete_outcome (mockService (.ok ⟨.ok 0⟩) (.error sql.ErrNoRows))
    Context.Background testID () World.empty).2.1 ⟨.ok 0⟩ rfl rfl
  have h2 := (Delete_outcome (mockService (.ok ⟨.ok 1⟩) (.error sql.ErrNoRows))
    Context.Background testID () World.empty).2.2.1 ⟨.ok 1⟩ 1 rfl rfl (by decide)
  have h3 := (Delete_outcome (mockService (.error ErrBadConnection) (.error sql.ErrNoRows))
    Context.Background testID () World.empty).2.2.2.1 ErrBadConnection rfl
  refine ⟨h.2.2.2.2.1 (by decide), ?_, by decide, ?_, h2, ?_⟩
  · rw [h.2.2.2.2.2.1]
    decide
  · rw [h1]
    decide
  · rw [h3]
    decide

/-- C7: with no transaction attached to the context, the carrier reports its
no-transaction error, and each of `GetTx`, `CreateTx`, `UpdateTx` and `DeleteTx` returns
that error and leaves the database state as it was, whatever the driver and whatever the
selector `input.ArticleID` denotes; `GetTx` returns a nil Article. -/
theorem Tx_without_transaction (svc : articleService σ) (ArticleID : Article → Value)
    (ctx : Context) (ID : UUID)
    (input : Article) (s : σ) (h : ctx.tx = none) :
    FromCtx ctx = .error ErrNoTransaction ∧
      svc.GetTx ctx ID s = ((none, some ErrNoTransaction), s) ∧
      svc.CreateTx ArticleID ctx input s = (some ErrNoTransaction, s) ∧
      svc.UpdateTx ArticleID ctx input s = (some ErrNoTransaction, s) ∧
      svc.DeleteTx ctx ID s = (some ErrNoTransaction, s) := by
  have hc : FromCtx ctx = .error ErrNoTransaction := by simp [FromCtx, h]
  exact ⟨hc, Tx_guard svc ArticleID ctx ID input s ErrNoTransaction hc⟩

/-- Witness of C7: on the table with the one live row of the tests and the background
context, the four calls leave the table and the statement log as they were. -/
theorem Tx_without_transaction_witness :
    Context.Background.tx = none ∧
      FromCtx Context.Background = .error ErrNoTransaction ∧
      newArticleService.GetTx Context.Background testID World.testRow =
        ((none, some ErrNoTransaction), World.testRow) ∧
      newArticleService.CreateTx selectorAsID Context.Background ⟨testID, "Foobar"⟩ World.testRow =
        (some ErrNoTransaction, World.testRow) ∧
      newArticleService.UpdateTx selectorAsID Context.Background ⟨testID, "Foobar"⟩ World.testRow =
        (some ErrNoTransaction, World.testRow) ∧
      newArticleService.DeleteTx Context.Background testID World.testRow =
        (some ErrNoTransaction, World.testRow) :=
  ⟨rfl, Tx_without_transaction newArticleService selectorAsID Context.Background testID ⟨testID, "Foobar"⟩
    World.testRow rfl⟩

/-- C8: if the id string parses as the UUID `u`, `NewArticle` returns no error and the
Article with ID `u` and the name the proto's accessor gives; if parsing fails with `e`,
it returns a nil Article and `e`, and the proto is left as it was: its accessor is not
called. -/
theorem NewArticle_outcome {π : Type} (ID : String) (proto : protoArticle π) (p : π) :
    (∀ u, ParseUUID ID = .ok u →
        NewArticle ID proto p =
          ((some { ID := u, Name := (proto.GetName p).1 }, none), (proto.GetName p).2)) ∧
      (∀ e, ParseUUID ID = .error e → NewArticle ID proto p = ((none, some e), p)) := by
  constructor
  · intro u h
    simp [NewArticle, h]
  · intro e h
    simp [NewArticle, h]

/-- Witness of C8: the id of the tests parses and the accessor is called once; a
truncated id fails with the identifier error and the accessor is not called. -/
theorem NewArticle_outcome_witness :
    NewArticle "72bc87f3-4a9f-4d05-93fe-844d3cd94c65" (countingProto "Foobar") 0 =
        ((some { ID := testID, Name := "Foobar" }, none), 1) ∧
      NewArticle "72bc87f3-4a9f" (countingProto "Foobar") 0 =
        ((none, some ErrInvalidIdentifier), 0) :=
  ⟨(NewArticle_outcome "72bc87f3-4a9f-4d05-93fe-844d3cd94c65" (countingProto "Foobar") 0).1
      testID (by decide),
    (NewArticle_outcome "72bc87f3-4a9f" (countingProto "Foobar") 0).2
      ErrInvalidIdentifier (by decide)⟩

/-- C9: `ToProto` is total; the response's id is the text form of the article's ID, which
has the 36 characters of the canonical form, and its name is the article's Name. -/
theorem ToProto_fields (a : Article) :
    a.ToProto.Id = a.ID.String ∧ a.ToProto.Name = a.Name ∧ a.ToProto.Id.length = 36 := by
  refine ⟨rfl, rfl, ?_⟩
  obtain ⟨⟨bs, hbs⟩, name⟩ := a
  simp only [Article.ToProto, UUID.String, String.length]
  match bs, hbs with
  | [b0, b1, b2, b3, b4, b5, b6, b7, b8, b9, b10, b11, b12, b13, b14, b15], _ =>
    simp [encodeHex, hexEncode]

/-- Counterexample to C10: `GetTx` with the background context returns the carrier's
error itself, which is not an error wrapped with the get message and the id. -/
theorem GetTx_error_without_context :
    (newArticleService.GetTx Context.Background testID World.testRow).1 =
        (none, some ErrNoTransaction) ∧
      (¬ ∃ cause, ErrNoTransaction =
        errors.Wrap cause ("Error executing get article - " ++ testID.String)) ∧
      ErrNoTransaction.Error = "no transaction in context" := by
  refine ⟨by decide, ?_, by decide⟩
  rintro ⟨cause, h⟩
  simp [ErrNoTransaction, errors.Wrap] at h

/-- C10 as amended: an error returned by `Get`, `Create`, `Update` or `Delete` wraps a
cause with the message of the operation followed by the key; an error returned by
`GetTx`, `CreateTx`, `UpdateTx` or `DeleteTx` does so too, unless the context carries no
transaction, when it is the error the carrier reported, as it is; this for whatever the
selector `input.ArticleID` denotes. -/
theorem errors_carry_context (svc : articleService σ) (ArticleID : Article → Value)
    (ctx : Context) (ID : UUID)
    (input : Article) (s : σ) (e : GoError) :
    ((svc.Get ctx ID s).1.2 = some e →
        ∃ cause, e = errors.Wrap cause ("Error executing get article - " ++ ID.String)) ∧
      ((svc.GetTx ctx ID s).1.2 = some e →
        (ctx.tx = none ∧ FromCtx ctx = .error e) ∨
        ∃ cause, e = errors.Wrap cause ("Error executing get article - " ++ ID.String)) ∧
      ((svc.Create ArticleID ctx input s).1 = some e →
        ∃ cause, e = errors.Wrap cause
          ("Error executing create article - " ++ fmt.SprintArticle input)) ∧
      ((svc.CreateTx ArticleID ctx input s).1 = some e →
        (ctx.tx = none ∧ FromCtx ctx = .error e) ∨
        ∃ cause, e = errors.Wrap cause
          ("Error executing create article - " ++ fmt.SprintArticle input)) ∧
      ((svc.Update ArticleID ctx input s).1 = some e →
        ∃ cause, e = errors.Wrap cause
          ("Error executing update article - " ++ fmt.SprintArticle input)) ∧
      ((svc.UpdateTx ArticleID ctx input s).1 = some e →
        (ctx.tx = none ∧ FromCtx ctx = .error e) ∨
        ∃ cause, e = errors.Wrap cause
          ("Error executing update article - " ++ fmt.SprintArticle input)) ∧
      ((svc.Delete ctx ID s).1 = some e →
        ∃ cause, e = errors.Wrap cause ("Error executing delete article - " ++ ID.String)) ∧
      ((svc.DeleteTx ctx ID s).1 = some e →
        (ctx.tx = none ∧ FromCtx ctx = .error e) ∨
        ∃ cause, e = errors.Wrap cause ("Error executing delete article - " ++ ID.String)) := by
  have hget : ∀ (stmt : Stmt),
      (match svc.db.QueryRowScan stmt [Value.uuid ID] s with
        | (.error err, s1) =>
          if errors.Is err sql.ErrNoRows then
            ((none, some (errors.Wrap ErrNotFound
              ("Error executing get article - " ++ fmt.SprintUUID ID))), s1)
          else
            ((none, some (errors.Wrap err
              ("Error executing get article - " ++ fmt.SprintUUID ID))), s1)
        | (.ok (_, _), s1) => ((some Article.zero, none), s1) :
          (Option Article × Option GoError) × σ).1.2 = some e →
      ∃ cause, e = errors.Wrap cause ("Error executing get article - " ++ ID.String) := by
    intro stmt
    generalize svc.db.QueryRowScan stmt [Value.uuid ID] s = r
    rcases r with ⟨err | ⟨a, b⟩, s1⟩
    · by_cases hIs : errors.Is err sql.ErrNoRows = true
      · simp only [if_pos hIs, Option.some.injEq, fmt.SprintUUID]
        intro h
        exact ⟨_, h.symm⟩
      · simp only [if_neg hIs, Option.some.injEq, fmt.SprintUUID]
        intro h
        exact ⟨_, h.symm⟩
    · simp
  have hexec : ∀ (stmt : Stmt) (args : List Value) (sentinel : GoError) (msg : String),
      (match svc.db.ExecContext stmt args s with
        | (.error err, s1) => (some (errors.Wrap err msg), s1)
        | (.ok result, s1) =>
          match result.RowsAffected with
          | .error err => (some (errors.Wrap err msg), s1)
          | .ok rowCount =>
            if rowCount = 0 then (some (errors.Wrap sentinel msg), s1)
            else (none, s1) : Option GoError × σ).1 = some e →
      ∃ cause, e = errors.Wrap cause msg := by
    intro stmt args sentinel msg
    generalize svc.db.ExecContext stmt args s = r
    rcases r with ⟨err | ⟨err | n⟩, s1⟩
    · simp only [Option.some.injEq]
      intro h
      exact ⟨_, h.symm⟩
    · simp only [Option.some.injEq]
      intro h
      exact ⟨_, h.symm⟩
    · by_cases hn : n = 0
      · simp only [if_pos hn, Option.some.injEq]
        intro h
        exact ⟨_, h.symm⟩
      · simp [if_neg hn]
  rcases ctx with ⟨_ | tx⟩
  · refine ⟨hget _, ?_, hexec _ _ _ _, ?_, hexec _ _ _ _, ?_, hexec _ _ _ _, ?_⟩ <;>
    · intro h
      left
      simpa [articleService.GetTx, articleService.get, articleService.CreateTx,
        articleService.create, articleService.UpdateTx, articleService.update,
        articleService.DeleteTx, articleService.delete, FromCtx, eq_comm] using h
  · refine ⟨hget _, ?_, hexec _ _ _ _, ?_, hexec _ _ _ _, ?_, hexec _ _ _ _, ?_⟩
    · exact fun h => Or.inr (hget _ h)
    · exact fun h => Or.inr (hexec _ _ _ _ h)
    · exact fun h => Or.inr (hexec _ _ _ _ h)
    · exact fun h => Or.inr (hexec _ _ _ _ h)

/-- Witness of C10 as amended: on a driver whose every call fails, the errors of `Get`,
`Create`, `Update` and `Delete` wrap a cause with the message and the key, and the errors
of the four transactional entry points with the background context are the one the
carrier reported. -/
theorem errors_carry_context_witness :
    (∃ cause, errors.Wrap ErrBadConnection ("Error executing get article - " ++ testID.String) =
        errors.Wrap cause ("Error executing get article - " ++ testID.String)) ∧
      (∃ cause, errors.Wrap ErrBadConnection
          ("Error executing create article - " ++ fmt.SprintArticle ⟨testID, "Foobar"⟩) =
        errors.Wrap cause
          ("Error executing create article - " ++ fmt.SprintArticle ⟨testID, "Foobar"⟩)) ∧
      (∃ cause, errors.Wrap ErrBadConnection
          ("Error executing update article - " ++ fmt.SprintArticle ⟨testID, "Foobar"⟩) =
        errors.Wrap cause
          ("Error executing update article - " ++ fmt.SprintArticle ⟨testID, "Foobar"⟩)) ∧
      (∃ cause, errors.Wrap ErrBadConnection
          ("Error executing delete article - " ++ testID.String) =
        errors.Wrap cause ("Error executing delete article - " ++ testID.String)) ∧
      (Context.Background.tx = none ∧ FromCtx Context.Background = .error ErrNoTransaction ∨
        ∃ cause, ErrNoTransaction =
          errors.Wrap cause ("Error executing get article - " ++ testID.String)) ∧
      (Context.Background.tx = none ∧ FromCtx Context.Background = .error ErrNoTransaction ∨
        ∃ cause, ErrNoTransaction = errors.Wrap cause
          ("Error executing create article - " ++ fmt.SprintArticle ⟨testID, "Foobar"⟩)) ∧
      (Context.Background.tx = none ∧ FromCtx Context.Background = .error ErrNoTransaction ∨
        ∃ cause, ErrNoTransaction = errors.Wrap cause
          ("Error executing update article - " ++ fmt.SprintArticle ⟨testID, "Foobar"⟩)) ∧
      (Context.Background.tx = none ∧ FromCtx Context.Background = .error ErrNoTransaction ∨
        ∃ cause, ErrNoTransaction =
          errors.Wrap cause ("Error executing delete article - " ++ testID.String)) :=
  ⟨(errors_carry_context (mockService (.error ErrBadConnection) (.error ErrBadConnection))
      selectorAsID Context.Background testID ⟨testID, "Foobar"⟩ () _).1 (by decide),
    (errors_carry_context (mockService (.error ErrBadConnection) (.error ErrBadConnection))
      selectorAsID Context.Background testID ⟨testID, "Foobar"⟩ () _).2.2.1 (by decide),
    (errors_carry_context (mockService (.error ErrBadConnection) (.error ErrBadConnection))
      selectorAsID Context.Background testID ⟨testID, "Foobar"⟩ () _).2.2.2.2.1 (by decide),
    (errors_carry_context (mockService (.error ErrBadConnection) (.error ErrBadConnection))
      selectorAsID Context.Background testID ⟨testID, "Foobar"⟩ () _).2.2.2.2.2.2.1 (by decide),
    (errors_carry_context (mockService (.error ErrBadConnection) (.error ErrBadConnection))
      selectorAsID Context.Background testID ⟨testID, "Foobar"⟩ () _).2.1 (by decide),
    (errors_carry_context (mockService (.error ErrBadConnection) (.error ErrBadConnection))
      selectorAsID Context.Background testID ⟨testID, "Foobar"⟩ () _).2.2.2.1 (by decide),
    (errors_carry_context (mockService (.error ErrBadConnection) (.error ErrBadConnection))
      selectorAsID Context.Background testID ⟨testID, "Foobar"⟩ () _).2.2.2.2.2.1 (by decide),
    (errors_carry_context (mockService (.error ErrBadConnection) (.error ErrBadConnection))
      selectorAsID Context.Background testID ⟨testID, "Foobar"⟩ () _).2.2.2.2.2.2.2 (by decide)⟩

end claims

end Articles
